import Mathlib

/-!
Shallow embedding of the `phone_modem` package (src/phone_modem/__init__.py):
the `PhoneModem` class, its command channel (`write` / `sendcmd`), the
response state machine `_modem_sm`, the initialization handshake performed in
`__init__`, call control (`accept_call` / `reject_call` / `hangup_call`), and
the audio path `play_audio_obj`.

Python `str` values are modelled as Lean `String`; the byte strings returned
by `serial.readline` are modelled as `String` too, since the code decodes
them immediately.  Python exceptions are modelled by `PyError` together with
`Except`.  `datetime.datetime.now()` is modelled by an abstract `Nat` clock
value supplied with each read.
-/

namespace PhoneModemSpec

/-- Python exception kinds relevant to this module: the package's own
`exceptions.SerialError`, pyserial's `serial.SerialException`, and the
builtin `AttributeError` and `ValueError`. -/
inductive PyError where
  | serialError
  | serialException
  | attributeError
  | valueError
  deriving DecidableEq

/-- Source constant `PhoneModem.STATE_IDLE = "idle"`. -/
def STATE_IDLE : String := "idle"

/-- Source constant `PhoneModem.STATE_RING = "ring"`. -/
def STATE_RING : String := "ring"

/-- Source constant `PhoneModem.STATE_CALLERID = "callerid"`. -/
def STATE_CALLERID : String := "callerid"

/-- Source constant `PhoneModem.STATE_FAILED = "failed"`. -/
def STATE_FAILED : String := "failed"

/-- Source constant `DEFAULT_CMD_CALLERID = "AT+VCID=1"`. -/
def DEFAULT_CMD_CALLERID : String := "AT+VCID=1"

/-- Source constant `READ_RING_TIMOUT = 10` (sic), assigned to the state
machine's `read_timeout` variable. -/
def READ_RING_TIMOUT : Option Nat := some 10

/-- Source constant `READ_IDLE_TIMEOUT = None`: block indefinitely. -/
def READ_IDLE_TIMEOUT : Option Nat := none

/-- The dynamic type of the `cid_time` attribute.  `__init__` sets
`self.cid_time = 0` (a Python `int`); `_modem_sm` later overwrites it with
`datetime.datetime.now()` (a `datetime`).  Only `datetime` has a `strftime`
method, so calling `strftime` on the integer raises `AttributeError`. -/
inductive CidTime where
  | intVal (n : Nat)
  | dateVal (t : Nat)
  deriving DecidableEq

/-- Result of `cid_time.strftime("%I:%M %p")`: an `AttributeError` on the
integer initial value, some formatted text on a `datetime` value (the exact
text is immaterial to the claims). -/
def CidTime.strftime : CidTime → Except PyError String
  | .intVal _ => .error .attributeError
  | .dateVal t => .ok (toString t)

/-- The transport handle (an opened `serial.Serial`): `writeRet` is the byte
count the handle reports for a given payload, `writeRaises` says whether
`ser.write` raises `serial.SerialException`. -/
structure Serial where
  writeRet : String → Nat
  writeRaises : Bool

/-- The mutable attributes of a `PhoneModem` instance (source lines 41-52),
with the source field names. -/
structure PhoneModem where
  state : String
  cmd_callerid : String
  cmd_response : String
  cmd_responselines : List String
  cid_time : CidTime
  cid_name : String
  cid_number : String
  ser : Option Serial

/-- A `PhoneModem` as `__init__` (lines 41-52) initializes the attributes,
before the transport is opened. -/
def mDefault : PhoneModem :=
  { state := STATE_FAILED
    cmd_callerid := DEFAULT_CMD_CALLERID
    cmd_response := ""
    cmd_responselines := []
    cid_time := .intVal 0
    cid_name := ""
    cid_number := ""
    ser := none }

/-- Embedding of `PhoneModem.write` (lines 93-100): clear `cmd_response` and
`cmd_responselines`, then, if no transport is attached, return 0; otherwise
append the CR/LF terminator and hand the bytes to `ser.write`, which either
raises or returns the byte count.  The state component records the attribute
mutations (they happen before `ser.write` is reached, so they survive a
raise). -/
def PhoneModem.write (m : PhoneModem) (cmd : String) :
    PhoneModem × Except PyError Nat :=
  let m1 := { m with cmd_response := "", cmd_responselines := ([] : List String) }
  match m1.ser with
  | none => (m1, Except.ok 0)
  | some s =>
      if s.writeRaises then (m1, Except.error PyError.serialException)
      else (m1, Except.ok (s.writeRet (cmd ++ "\r\n")))

/-- Embedding of `PhoneModem.sendcmd` (lines 102-110).  In this sequential
embedding the poll loop (`while self.get_response() == "" ...: sleep`) is a
pure delay, so the observable effect is the `write` call; the returned list
records the command handed to `write`, and a `serial.SerialException` from
`ser.write` propagates to the caller as in the source. -/
def PhoneModem.sendcmd (m : PhoneModem) (cmd : String) :
    Except PyError (PhoneModem × List String) :=
  match m.write cmd with
  | (_, Except.error e) => Except.error e
  | (m1, Except.ok _) => Except.ok (m1, [cmd])

/-- Embedding of `PhoneModem.accept_call` (lines 234-237): attach a freshly
opened serial handle, then `sendcmd("ATA")`. -/
def accept_call (m : PhoneModem) (s : Serial) :
    Except PyError (PhoneModem × List String) :=
  PhoneModem.sendcmd { m with ser := some s } "ATA"

/-- Embedding of `PhoneModem.hangup_call` (lines 245-248):
`sendcmd("AT+FCLASS=8")` then `sendcmd("ATH")`. -/
def hangup_call (m : PhoneModem) :
    Except PyError (PhoneModem × List String) :=
  match m.sendcmd "AT+FCLASS=8" with
  | .error e => .error e
  | .ok (m1, t1) =>
    match m1.sendcmd "ATH" with
    | .error e => .error e
    | .ok (m2, t2) => .ok (m2, t1 ++ t2)

/-- Embedding of `PhoneModem.reject_call` (lines 239-243): reattach the
serial handle, then `accept_call` followed by `hangup_call`.  The returned
list is the sequence of commands handed to `write`, in order. -/
def reject_call (m : PhoneModem) (s : Serial) :
    Except PyError (PhoneModem × List String) :=
  match accept_call { m with ser := some s } s with
  | .error e => .error e
  | .ok (m1, t1) =>
    match hangup_call m1 with
    | .error e => .error e
    | .ok (m2, t2) => .ok (m2, t1 ++ t2)

/-- Observable outcome of `PhoneModem.__init__` for the failure analysis:
the final `_state` string, whether `self.ser` is still attached on return,
and whether `ser.close()` was called during the handshake. -/
structure InitState where
  state : String
  serAttached : Bool
  serClosed : Bool
  deriving DecidableEq

/-- Result of running `PhoneModem.__init__`: either an exception propagated
to the caller, or a normal return carrying the observable outcome. -/
inductive InitResult where
  | raised (e : PyError)
  | returned (st : InitState)
  deriving DecidableEq

/-- True exactly when `__init__` raised toward its caller. -/
def InitResult.isRaised : InitResult → Bool
  | .raised _ => true
  | .returned _ => false

/-- Embedding of the `PhoneModem.__init__` handshake (lines 54-78),
sequentially: `openOk` is whether `serial.Serial(port)` succeeds (else
`exceptions.SerialError` is raised); `atRaises` / `cidRaises` are whether the
corresponding `sendcmd` raises `serial.SerialException` (caught at line 75,
after which control falls through to `set_state(STATE_IDLE)` at line 78);
`atResp` / `cidResp` are the resolved `get_response()` values.  An empty `AT`
response, or an empty or `"ERROR"` caller-id response, logs, closes the
transport, detaches it and returns — no exception is raised and
`set_state(STATE_IDLE)` is skipped, leaving `_state` at its initial
`STATE_FAILED`. -/
def initPhoneModem (openOk atRaises : Bool) (atResp : String)
    (cidRaises : Bool) (cidResp : String) : InitResult :=
  if openOk = false then .raised .serialError
  else if atRaises then .returned ⟨STATE_IDLE, false, false⟩
  else if atResp = "" then .returned ⟨STATE_FAILED, false, true⟩
  else if cidRaises then .returned ⟨STATE_IDLE, false, false⟩
  else if cidResp = "" ∨ cidResp = "ERROR" then .returned ⟨STATE_FAILED, false, true⟩
  else .returned ⟨STATE_IDLE, true, false⟩

/-- The attribute names defined on `PhoneModem` instances: the class-level
constants, the attributes assigned in `__init__` (lines 41-52), and the
methods/properties of the class body.  Name-mangled private attributes
`_PhoneModem__at` and `_PhoneModem__con`, which `play_audio_obj`,
`play_tones`, `dial` and `record_call` reference, are not among them. -/
def PHONE_MODEM_ATTRS : List String :=
  ["STATE_IDLE", "STATE_RING", "STATE_CALLERID", "STATE_FAILED",
   "port", "incomingcallnotificationfunc", "_state", "cmd_callerid",
   "cmd_response", "cmd_responselines", "cid_time", "cid_name", "cid_number",
   "ser", "registercallback", "read", "write", "sendcmd",
   "_placeholdercallback", "set_state", "state", "get_cidname",
   "get_cidnumber", "get_cidtime", "get_response", "get_lines", "close",
   "_modem_sm", "accept_call", "reject_call", "hangup_call", "tts_say",
   "play_tones", "play_audio_obj", "play_audio_file", "dial", "record_call"]

/-- Python attribute lookup on a `PhoneModem` instance: `AttributeError`
when the name is not defined on the instance or its class. -/
def getattrPhoneModem (name : String) : Except PyError Unit :=
  if name ∈ PHONE_MODEM_ATTRS then .ok () else .error .attributeError

/-- Embedding of `PhoneModem.play_audio_obj` (lines 276-295).  The first
statements compute the default timeout from the wave object and then execute
`self.__at("AT+VTX")`, i.e. look up the name-mangled attribute
`_PhoneModem__at` — which the class does not define, so every call raises
`AttributeError` before any frame is written.  The error payload carries the
list of chunks written to the transport up to the raise (always empty); the
streaming loop at lines 287-295 is unreachable on every input. -/
def play_audio_obj (nframes framerate timeout : Nat) :
    Except (PyError × List (List Nat)) (List (List Nat)) :=
  let _timeout := if timeout = 0 then nframes / framerate else timeout
  match getattrPhoneModem "_PhoneModem__at" with
  | .error e => .error (e, [])
  | .ok _ => .ok []

/-- True on the characters `str.strip("\r\n")` removes. -/
def isCRLF (c : Char) : Bool := c == '\r' || c == '\n'

/-- Embedding of Python `resp.strip("\r\n")`: drop `\r` / `\n` characters
from both ends. -/
def stripCRLF (s : String) : String :=
  ⟨((s.data.dropWhile isCRLF).reverse.dropWhile isCRLF).reverse⟩

/-- Embedding of Python `s.split("=")` on the character list. -/
def splitOnEq : List Char → List (List Char)
  | [] => [[]]
  | c :: cs =>
      if c = '=' then [] :: splitOnEq cs
      else
        match splitOnEq cs with
        | [] => [[c]]
        | h :: t => (c :: h) :: t

/-- Embedding of Python `s.split("=")` on strings. -/
def pySplitEq (s : String) : List String :=
  (splitOnEq s.data).map (fun l => ⟨l⟩)

/-- Embedding of Python `s.strip()`: drop whitespace from both ends. -/
def pyStrip (s : String) : String :=
  ⟨((s.data.dropWhile Char.isWhitespace).reverse.dropWhile Char.isWhitespace).reverse⟩

/-- The conditional append at lines 178-179: while no completion code has
arrived (`cmd_response == ""`), every decoded line is appended to
`cmd_responselines`. -/
def appendResp (m : PhoneModem) (resp : String) : PhoneModem :=
  if m.cmd_response = "" then
    { m with cmd_responselines := m.cmd_responselines ++ [resp] }
  else m

/-- One read outcome observed by the `_modem_sm` loop: a successfully read
raw line together with the clock value `datetime.datetime.now()` would
return while processing it, or a read that raises one of the caught
exceptions (`serial.SerialException`, `SystemExit`, `TypeError`). -/
inductive ReadResult where
  | ok (raw : String) (now : Nat)
  | err

/-- Outcome of one `_modem_sm` loop iteration: continue with the updated
instance, the next `read_timeout`, the states passed to the notification
callback, and the commands handed to `write`; or `break` out of the loop;
or die on an uncaught Python exception. -/
inductive StepOut where
  | cont (m : PhoneModem) (rt : Option Nat) (cbs wr : List String)
  | brk (m : PhoneModem) (cbs wr : List String)
  | exn (e : PyError) (m : PhoneModem) (cbs wr : List String)

/-- The instance state carried by a step outcome. -/
def StepOut.modem : StepOut → PhoneModem
  | .cont m _ _ _ => m
  | .brk m _ _ => m
  | .exn _ m _ _ => m

/-- The callback invocations of a step outcome. -/
def StepOut.cbs : StepOut → List String
  | .cont _ _ cbs _ => cbs
  | .brk _ cbs _ => cbs
  | .exn _ _ cbs _ => cbs

/-- The commands handed to `write` during a step. -/
def StepOut.wr : StepOut → List String
  | .cont _ _ _ wr => wr
  | .brk _ _ wr => wr
  | .exn _ _ _ wr => wr

/-- One iteration of the `_modem_sm` loop body (lines 163-228), translated
clause by clause: the read-error `break`; the silence timeout (non-idle
state, empty read); CR/LF stripping and the conditional append; the
`OK`/`ERROR` completion codes; `RING` with its idle-only caller-id reset;
the noise filter (length at most 4 or no `=`); and the `FIELD=value`
dispatch for `DATE`, `NMBR` and `NAME`, where `NAME` logs via
`cid_time.strftime` (an uncaught `AttributeError` on the integer initial
value) and then re-issues `cmd_callerid` via `write`, breaking on a
`serial.SerialException`.  A line whose `split("=")` has more than two
fields raises an uncaught `ValueError` at the unpacking assignment. -/
def modemSmStep (m : PhoneModem) (rt : Option Nat) : ReadResult → StepOut
  | .err => .brk m [] []
  | .ok raw now =>
    if m.state ≠ STATE_IDLE ∧ raw = "" then
      .cont { m with state := STATE_IDLE } READ_IDLE_TIMEOUT [STATE_IDLE] []
    else
      let resp := stripCRLF raw
      let m1 := appendResp m resp
      if resp = "OK" ∨ resp = "ERROR" then
        .cont { m1 with cmd_response := resp } rt [] []
      else if resp = "RING" then
        let m2 :=
          if m1.state = STATE_IDLE then
            { m1 with cid_name := "", cid_number := "", cid_time := .dateVal now }
          else m1
        .cont { m2 with state := STATE_RING } READ_RING_TIMOUT [STATE_RING] []
      else if resp.length ≤ 4 ∨ '=' ∉ resp.data then
        .cont m1 rt [] []
      else
        match pySplitEq resp with
        | [cid_field, cid_data] =>
          let f := pyStrip cid_field
          let d := pyStrip cid_data
          if f = "DATE" then
            .cont { m1 with cid_time := .dateVal now } READ_RING_TIMOUT [] []
          else if f = "NMBR" then
            .cont { m1 with cid_number := d } READ_RING_TIMOUT [] []
          else if f = "NAME" then
            let m2 := { m1 with cid_name := d, state := STATE_CALLERID }
            match m2.cid_time.strftime with
            | .error e => .exn e m2 [STATE_CALLERID] []
            | .ok _ =>
              let w := m2.write m2.cmd_callerid
              match w.2 with
              | .error _ => .brk w.1 [STATE_CALLERID] [m2.cmd_callerid]
              | .ok _ => .cont w.1 READ_RING_TIMOUT [STATE_CALLERID] [m2.cmd_callerid]
          else .cont m1 READ_RING_TIMOUT [] []
        | _ => .exn .valueError m1 [] []

/-- The `_modem_sm` loop (lines 158-232) over a finite list of read
outcomes.  An exhausted list models the transport being closed (the `while
self.ser` guard turning false).  A normal exit — exhaustion or `break` —
runs line 230: `set_state(STATE_FAILED)`; no callback is invoked on exit.
An uncaught Python exception kills the loop without reaching line 230; the
error payload carries the exception, the instance state at death and the
callback invocations made during the whole run. -/
def modemSm :
    List ReadResult → PhoneModem → Option Nat →
    Except (PyError × PhoneModem × List String) (PhoneModem × List String)
  | [], m, _ => .ok ({ m with state := STATE_FAILED }, [])
  | r :: rest, m, rt =>
    match modemSmStep m rt r with
    | .cont m1 rt1 cbs _ =>
      match modemSm rest m1 rt1 with
      | .ok (mf, cbs1) => .ok (mf, cbs ++ cbs1)
      | .error (e, mf, cbs1) => .error (e, mf, cbs ++ cbs1)
    | .brk m1 cbs _ => .ok ({ m1 with state := STATE_FAILED }, cbs)
    | .exn e m1 cbs _ => .error (e, m1, cbs)

/-- Modelled from the spec: the Retry Controller of §4.3 is not part of the
code under src/ (the `_modem_sm` loop there has no retry branch — it breaks
unconditionally on a read error), so its reset cycle is modelled from the
spec's words: wait a fixed 10 s, close the transport, pause briefly, re-run
the initialization handshake. -/
inductive RetryEvent where
  | wait (secs : Nat)
  | closeTransport
  | pause
  | rerunHandshake
  deriving DecidableEq

/-- Modelled from the spec: one full reset attempt of the Retry Controller,
preceded by its fixed 10-second wait. -/
def retryCycle : List RetryEvent :=
  [.wait 10, .closeTransport, .pause, .rerunHandshake]

/-- Modelled from the spec: the Retry Controller run for at most `fuel`
attempts starting at attempt index `k`, where `resetOk j` says whether the
j-th reset attempt succeeds.  It returns the emitted event trace and whether
a reset succeeded; its type has no error alternative — the controller never
raises toward the original initializer. -/
def retryController (resetOk : Nat → Bool) : Nat → Nat → List RetryEvent × Bool
  | 0, _ => ([], false)
  | fuel + 1, k =>
      if resetOk k then (retryCycle, true)
      else
        let r := retryController resetOk fuel (k + 1)
        (retryCycle ++ r.1, r.2)

/-- A transport handle that reports the payload length as the byte count and
never raises. -/
def serCount : Serial := ⟨fun str => str.length, false⟩

/-- A session with a healthy transport attached and an unresolved previous
command. -/
def mWithSer : PhoneModem :=
  { mDefault with ser := some serCount, cmd_response := "OK", cmd_responselines := ["AT"] }

/-- A session back in the idle state while caller-id fields from an earlier
ring cycle are still populated (reachable: a silence timeout resets the
state to idle without touching `cid_name` / `cid_number`). -/
def mIdleNamed : PhoneModem :=
  { mDefault with state := STATE_IDLE, cid_name := "JOHN", cid_number := "5551234" }

/-- A ringing session whose `cid_time` already holds a `datetime` value and
which has collected lines for a pending (unresolved) command. -/
def mPending : PhoneModem :=
  { mDefault with
    state := STATE_RING
    cid_time := CidTime.dateVal 5
    cmd_responselines := ["ATA"] }

/-! Helper lemmas about the embedding. -/

@[simp] theorem appendResp_state (m : PhoneModem) (r : String) :
    (appendResp m r).state = m.state := by
  unfold appendResp; split <;> rfl

@[simp] theorem appendResp_cid_name (m : PhoneModem) (r : String) :
    (appendResp m r).cid_name = m.cid_name := by
  unfold appendResp; split <;> rfl

@[simp] theorem appendResp_cid_number (m : PhoneModem) (r : String) :
    (appendResp m r).cid_number = m.cid_number := by
  unfold appendResp; split <;> rfl

@[simp] theorem appendResp_cid_time (m : PhoneModem) (r : String) :
    (appendResp m r).cid_time = m.cid_time := by
  unfold appendResp; split <;> rfl

@[simp] theorem appendResp_cmd_callerid (m : PhoneModem) (r : String) :
    (appendResp m r).cmd_callerid = m.cmd_callerid := by
  unfold appendResp; split <;> rfl

@[simp] theorem appendResp_ser (m : PhoneModem) (r : String) :
    (appendResp m r).ser = m.ser := by
  unfold appendResp; split <;> rfl

@[simp] theorem appendResp_cmd_response (m : PhoneModem) (r : String) :
    (appendResp m r).cmd_response = m.cmd_response := by
  unfold appendResp; split <;> rfl

theorem stripCRLF_length_le (s : String) : (stripCRLF s).length ≤ s.length := by
  show (((s.data.dropWhile isCRLF).reverse.dropWhile isCRLF).reverse).length ≤ s.data.length
  rw [List.length_reverse]
  calc ((s.data.dropWhile isCRLF).reverse.dropWhile isCRLF).length
      ≤ (s.data.dropWhile isCRLF).reverse.length := (List.dropWhile_sublist _).length_le
    _ = (s.data.dropWhile isCRLF).length := List.length_reverse _
    _ ≤ s.data.length := (List.dropWhile_sublist _).length_le

theorem mem_data_of_mem_stripCRLF {c : Char} {s : String}
    (h : c ∈ (stripCRLF s).data) : c ∈ s.data := by
  replace h : c ∈ ((s.data.dropWhile isCRLF).reverse.dropWhile isCRLF).reverse := h
  have h1 : c ∈ (s.data.dropWhile isCRLF).reverse.dropWhile isCRLF :=
    (List.mem_reverse).1 h
  have h2 : c ∈ (s.data.dropWhile isCRLF).reverse := List.dropWhile_subset _ h1
  exact List.dropWhile_subset _ ((List.mem_reverse).1 h2)

/-! Claim theorems. -/

/-- C1: on a transport error raised during the read step, the `_modem_sm`
loop (which has no retry branch in this code base, i.e. the session
disallows retry) terminates and the phase becomes Failed, with no exception
propagated.  The retry-enabled half is settled against the spec-modelled
Retry Controller: with every reset failing it repeats its fixed cycle (wait
10 s, close, pause, re-run the handshake) for arbitrarily much fuel without
returning an error — its result type has no error alternative, so no error
can reach the original initializer — and on the first successful reset it
stops after that full cycle. -/
theorem claim_C1 :
    (∀ (rest : List ReadResult) (m : PhoneModem) (rt : Option Nat),
       modemSm (ReadResult.err :: rest) m rt =
         Except.ok ({ m with state := STATE_FAILED }, [])) ∧
    (∀ (resetOk : Nat → Bool) (fuel k : Nat), (∀ j, resetOk j = false) →
       retryController resetOk fuel k = ((List.replicate fuel retryCycle).flatten, false)) ∧
    (∀ (resetOk : Nat → Bool) (fuel k : Nat), resetOk k = true →
       retryController resetOk (fuel + 1) k = (retryCycle, true)) := by
  refine ⟨fun rest m rt => rfl, ?_, ?_⟩
  · intro resetOk fuel
    induction fuel with
    | zero => intro k _; simp [retryController]
    | succ n ih =>
      intro k h
      simp [retryController, h k, ih (k + 1) h, List.replicate_succ]
  · intro resetOk fuel k h
    simp [retryController, h]

/-- C1 witness: a concrete erroring read terminates the loop with phase
Failed, and a retry run whose resets all fail spends all its fuel repeating
the fixed cycle without ever succeeding or erroring. -/
theorem claim_C1_witness :
    modemSm [ReadResult.err] mDefault READ_IDLE_TIMEOUT =
      Except.ok ({ mDefault with state := STATE_FAILED }, []) ∧
    retryController (fun _ => false) 2 0 = (retryCycle ++ retryCycle, false) := by
  constructor
  · exact claim_C1.1 [] mDefault READ_IDLE_TIMEOUT
  · have h := claim_C1.2.1 (fun _ => false) 2 0 (fun _ => rfl)
    rw [h]; rfl

/-- C3 counterexample: the loop over an already-closed transport exits with
phase Failed but with an empty callback trace — no final callback invocation
occurs, contradicting the claim that the callback fires one final time
before returning. -/
theorem claim_C3_cex :
    ¬ ∃ p : PhoneModem × List String,
        modemSm [] mDefault READ_IDLE_TIMEOUT = Except.ok p ∧ p.2 ≠ [] := by
  rintro ⟨p, hp, hne⟩
  have h0 : modemSm [] mDefault READ_IDLE_TIMEOUT =
      Except.ok ({ mDefault with state := STATE_FAILED }, []) := rfl
  rw [h0] at hp
  injection hp with h1
  rw [← h1] at hne
  exact hne rfl

/-- C3 (amended): whenever the `_modem_sm` loop exits normally (transport
closed or a terminal `break`), it sets the phase to Failed before
returning, but it does not invoke the state-change callback at exit: the
exit transition adds no callback invocation. -/
theorem claim_C3_amended :
    (∀ (inputs : List ReadResult) (m : PhoneModem) (rt : Option Nat)
       (mf : PhoneModem) (cbs : List String),
       modemSm inputs m rt = Except.ok (mf, cbs) → mf.state = STATE_FAILED) ∧
    (∀ (m : PhoneModem) (rt : Option Nat),
       modemSm [] m rt = Except.ok ({ m with state := STATE_FAILED }, [])) := by
  constructor
  · intro inputs
    induction inputs with
    | nil =>
      intro m rt mf cbs h
      simp only [modemSm, Except.ok.injEq, Prod.mk.injEq] at h
      rw [← h.1]
    | cons r rest ih =>
      intro m rt mf cbs h
      simp only [modemSm] at h
      split at h
      · rename_i m1 rt1 cbs1 wr1 hstep
        split at h
        · rename_i mf1 cbs2 hrec
          simp only [Except.ok.injEq, Prod.mk.injEq] at h
          rw [← h.1]
          exact ih m1 rt1 mf1 cbs2 hrec
        · simp at h
      · rename_i m1 cbs1 wr1 hstep
        simp only [Except.ok.injEq, Prod.mk.injEq] at h
        rw [← h.1]
      · simp at h
  · intro m rt
    rfl

/-- C3 witness: the general exit property applied to a concrete exhausted
run — the returned instance is in the Failed phase. -/
theorem claim_C3_witness :
    ({ mDefault with state := STATE_FAILED } : PhoneModem).state = STATE_FAILED :=
  claim_C3_amended.1 [] mDefault READ_IDLE_TIMEOUT
    { mDefault with state := STATE_FAILED } [] rfl

/-- C4 counterexample: with the transport open and an empty resolved `AT`
response, `__init__` does not raise toward its caller — it logs, closes the
transport and returns normally with the phase still Failed. -/
theorem claim_C4_cex :
    (initPhoneModem true false "" false "OK").isRaised = false ∧
    initPhoneModem true false "" false "OK" =
      InitResult.returned ⟨STATE_FAILED, false, true⟩ := by
  constructor <;> rfl

/-- C4 (amended): if the resolved response to the `AT` probe is empty, or
the caller-id-enable command resolves empty or `"ERROR"`, the handshake
fails, the transport is closed and detached, and `__init__` returns
normally — the failure is logged, not raised; the session does not
transition to the Idle phase (the state remains Failed). -/
theorem claim_C4_amended (atResp cidResp : String) :
    (atResp = "" →
      initPhoneModem true false atResp false cidResp =
        InitResult.returned ⟨STATE_FAILED, false, true⟩) ∧
    (atResp ≠ "" → (cidResp = "" ∨ cidResp = "ERROR") →
      initPhoneModem true false atResp false cidResp =
        InitResult.returned ⟨STATE_FAILED, false, true⟩) := by
  constructor
  · intro h
    simp [initPhoneModem, h]
  · intro h1 h2
    simp [initPhoneModem, h1, h2]

/-- C4 witness: a concrete handshake whose caller-id-enable command resolves
to ERROR returns normally with the transport closed and the phase Failed. -/
theorem claim_C4_witness :
    initPhoneModem true false "AT" false "ERROR" =
      InitResult.returned ⟨STATE_FAILED, false, true⟩ :=
  (claim_C4_amended "AT" "ERROR").2 (by decide) (Or.inr rfl)

/-- C5: `play_audio_obj` raises `AttributeError` on every input before any
frame is written — the name-mangled attributes `_PhoneModem__at` and
`_PhoneModem__con` it references are not defined on the class — so it never
transmits ceil(N / 1024) frames, never pauses a configured interval between
frames (the unreachable loop would sleep 0.06 s, not 0.12 s), and never
performs any session reset afterwards. -/
theorem claim_C5 (nframes framerate timeout : Nat) :
    play_audio_obj nframes framerate timeout =
      Except.error (PyError.attributeError, []) := rfl

/-- C7: every call to `write` first clears `cmd_response` and
`cmd_responselines` — even when no transport is attached — and then either
returns 0 with no transport, or hands the text followed by the CR/LF
terminator to the transport and returns the byte count the transport
reports. -/
theorem claim_C7 (m : PhoneModem) (cmd : String) :
    (m.write cmd).1.cmd_response = "" ∧
    (m.write cmd).1.cmd_responselines = [] ∧
    (m.ser = none → (m.write cmd).2 = Except.ok 0) ∧
    (∀ s : Serial, m.ser = some s → s.writeRaises = false →
      (m.write cmd).2 = Except.ok (s.writeRet (cmd ++ "\r\n"))) := by
  cases hm : m.ser with
  | none =>
    refine ⟨?_, ?_, ?_, ?_⟩ <;> simp [PhoneModem.write, hm]
  | some s =>
    by_cases hw : s.writeRaises <;>
      refine ⟨?_, ?_, ?_, ?_⟩ <;>
        simp_all [PhoneModem.write, hm, hw]

/-- C7 witness: a concrete write on a session with an unresolved previous
command clears both command-channel fields and returns the 4 bytes of
"AT\r\n". -/
theorem claim_C7_witness :
    (mWithSer.write "AT").1.cmd_response = "" ∧
    (mWithSer.write "AT").1.cmd_responselines = [] ∧
    (mWithSer.write "AT").2 = Except.ok 4 := by
  refine ⟨(claim_C7 mWithSer "AT").1, (claim_C7 mWithSer "AT").2.1, ?_⟩
  have h := (claim_C7 mWithSer "AT").2.2.2 serCount rfl rfl
  rw [h]; rfl

/-- C8: for every current phase, `reject_call` hands exactly the commands
`ATA`, `AT+FCLASS=8`, `ATH` to `write`, in that order. -/
theorem claim_C8 (m : PhoneModem) (s : Serial) (h : s.writeRaises = false) :
    Except.map Prod.snd (reject_call m s) =
      Except.ok ["ATA", "AT+FCLASS=8", "ATH"] := by
  simp [reject_call, accept_call, hangup_call, PhoneModem.sendcmd,
    PhoneModem.write, h, Except.map]

/-- C8 witness: a concrete `reject_call` on a healthy transport issues the
three commands in order. -/
theorem claim_C8_witness :
    Except.map Prod.snd (reject_call mDefault serCount) =
      Except.ok ["ATA", "AT+FCLASS=8", "ATH"] :=
  claim_C8 mDefault serCount rfl

/-- C2 counterexample: the line `"RING"` is shorter than 5 characters and
lacks `=`, yet processing it in the idle state clears a previously
populated `cid_name` (the state machine handles `RING` before the
length-and-separator noise filter). -/
theorem claim_C2_cex :
    (modemSmStep mIdleNamed READ_IDLE_TIMEOUT (ReadResult.ok "RING" 7)).modem.cid_name = "" ∧
    mIdleNamed.cid_name = "JOHN" ∧
    ("RING" : String).length < 5 ∧ '=' ∉ ("RING" : String).data := by
  refine ⟨?_, rfl, by decide, by decide⟩
  rfl

/-- C2 (amended): for every input line shorter than 5 characters, or
lacking an `=` character, whose stripped content is not the recognized
token `"RING"`, processing that line leaves `cid_name` and `cid_number`
unchanged, regardless of the current phase.  (`"RING"` is exempt because
the token dispatch runs before the noise filter: from Idle it clears both
fields.) -/
theorem claim_C2_amended (m : PhoneModem) (rt : Option Nat) (raw : String) (now : Nat)
    (h1 : raw.length < 5 ∨ '=' ∉ raw.data)
    (h2 : stripCRLF raw ≠ "RING") :
    (modemSmStep m rt (ReadResult.ok raw now)).modem.cid_name = m.cid_name ∧
    (modemSmStep m rt (ReadResult.ok raw now)).modem.cid_number = m.cid_number := by
  have hcond : (stripCRLF raw).length ≤ 4 ∨ '=' ∉ (stripCRLF raw).data := by
    rcases h1 with h | h
    · exact Or.inl (by have := stripCRLF_length_le raw; omega)
    · exact Or.inr fun hc => h (mem_data_of_mem_stripCRLF hc)
  by_cases hsil : m.state ≠ STATE_IDLE ∧ raw = ""
  · simp [modemSmStep, hsil, StepOut.modem]
  · by_cases hOK : stripCRLF raw = "OK" ∨ stripCRLF raw = "ERROR"
    · simp [modemSmStep, hsil, hOK, StepOut.modem]
    · simp [modemSmStep, hsil, hOK, h2, hcond, StepOut.modem]

/-- C2 witness: an `"OK"` completion line (short, no separator) leaves the
populated caller-id fields of an idle session untouched. -/
theorem claim_C2_witness :
    (modemSmStep mIdleNamed READ_IDLE_TIMEOUT (ReadResult.ok "OK" 3)).modem.cid_name = "JOHN" ∧
    (modemSmStep mIdleNamed READ_IDLE_TIMEOUT (ReadResult.ok "OK" 3)).modem.cid_number = "5551234" :=
  claim_C2_amended mIdleNamed READ_IDLE_TIMEOUT "OK" 3 (Or.inl (by decide)) (by decide)

/-- C6: processing a `"RING"` line from Idle clears `cid_name` and
`cid_number` and stamps `cid_time` with the current time; from Ringing or
CallerIdReady it leaves them unchanged; in both cases the state becomes
Ringing, the callback fires with that state, and the read timeout shortens
to the ring window `READ_RING_TIMOUT`. -/
theorem claim_C6 (m : PhoneModem) (rt : Option Nat) (raw : String) (now : Nat)
    (h : stripCRLF raw = "RING") :
    (m.state = STATE_IDLE →
      modemSmStep m rt (ReadResult.ok raw now) =
        StepOut.cont
          { appendResp m "RING" with
            cid_name := "", cid_number := "", cid_time := CidTime.dateVal now,
            state := STATE_RING }
          READ_RING_TIMOUT [STATE_RING] []) ∧
    (m.state = STATE_RING ∨ m.state = STATE_CALLERID →
      modemSmStep m rt (ReadResult.ok raw now) =
        StepOut.cont { appendResp m "RING" with state := STATE_RING }
          READ_RING_TIMOUT [STATE_RING] []) := by
  have hraw : raw ≠ "" := by
    intro h0
    rw [h0] at h
    exact absurd h (by decide)
  constructor
  · intro hs
    simp [modemSmStep, h, hraw, hs]
  · rintro (hs | hs) <;> simp [modemSmStep, h, hraw, hs, STATE_RING, STATE_CALLERID, STATE_IDLE]

/-- C6 witness: a concrete `"RING"` read in the idle state with stale
caller-id fields clears them, stamps the ring time, rings the callback and
shortens the timeout. -/
theorem claim_C6_witness :
    modemSmStep mIdleNamed READ_IDLE_TIMEOUT (ReadResult.ok "RING" 7) =
      StepOut.cont
        { appendResp mIdleNamed "RING" with
          cid_name := "", cid_number := "", cid_time := CidTime.dateVal 7,
          state := STATE_RING }
        READ_RING_TIMOUT [STATE_RING] [] :=
  (claim_C6 mIdleNamed READ_IDLE_TIMEOUT "RING" 7 (by decide)).1 rfl

/-- C9: processing a `NAME=value` line (on a session whose `cid_time`
already holds a `datetime`, so the log formatting succeeds) re-issues the
caller-id-enable command `cmd_callerid` via `write`, and `write` clears
`cmd_response` and `cmd_responselines` — so a pending foreground command's
unresolved completion code and all lines collected for it are silently
discarded. -/
theorem claim_C9 (m : PhoneModem) (rt : Option Nat) (raw : String) (now t : Nat)
    (f d : String)
    (_hpend : m.cmd_response = "")
    (htime : m.cid_time = CidTime.dateVal t)
    (hlen : 4 < (stripCRLF raw).length)
    (hmem : '=' ∈ (stripCRLF raw).data)
    (hsplit : pySplitEq (stripCRLF raw) = [f, d])
    (hf : pyStrip f = "NAME") :
    (modemSmStep m rt (ReadResult.ok raw now)).wr = [m.cmd_callerid] ∧
    (modemSmStep m rt (ReadResult.ok raw now)).modem.cmd_response = "" ∧
    (modemSmStep m rt (ReadResult.ok raw now)).modem.cmd_responselines = [] := by
  have hraw : raw ≠ "" := by
    intro h0
    rw [h0] at hlen
    exact absurd hlen (by decide)
  have hOK : stripCRLF raw ≠ "OK" := by
    intro h0; rw [h0] at hlen; exact absurd hlen (by decide)
  have hERR : stripCRLF raw ≠ "ERROR" := by
    intro h0; rw [h0] at hmem; exact absurd hmem (by decide)
  have hRING : stripCRLF raw ≠ "RING" := by
    intro h0; rw [h0] at hlen; exact absurd hlen (by decide)
  have hnle : ¬ (stripCRLF raw).length ≤ 4 := Nat.not_le.2 hlen
  rcases hser : m.ser with _ | s
  · simp [modemSmStep, hsplit, hf, htime, hraw, hOK, hERR, hRING, hnle, hmem,
      CidTime.strftime, PhoneModem.write, hser, StepOut.wr, StepOut.modem]
  · by_cases hw : s.writeRaises <;>
      simp [modemSmStep, hsplit, hf, htime, hraw, hOK, hERR, hRING, hnle, hmem,
        CidTime.strftime, PhoneModem.write, hser, hw, StepOut.wr, StepOut.modem]

/-- C9 witness: a concrete unsolicited `NAME=JOHN` line on a ringing
session with a pending command re-issues the caller-id-enable command and
empties the pending command's collected lines. -/
theorem claim_C9_witness :
    (modemSmStep mPending READ_RING_TIMOUT (ReadResult.ok "NAME=JOHN" 9)).wr =
      [DEFAULT_CMD_CALLERID] ∧
    (modemSmStep mPending READ_RING_TIMOUT (ReadResult.ok "NAME=JOHN" 9)).modem.cmd_response = "" ∧
    (modemSmStep mPending READ_RING_TIMOUT (ReadResult.ok "NAME=JOHN" 9)).modem.cmd_responselines = [] :=
  claim_C9 mPending READ_RING_TIMOUT "NAME=JOHN" 9 5 "NAME" "JOHN" rfl rfl
    (by decide) (by decide) (by decide) (by decide)

/-- C10: a `NAME=value` line processed while `cid_time` still holds the
integer initial value 0 (no RING-from-Idle or DATE line processed since
construction) makes the state machine raise `AttributeError` while
formatting the timestamp for the log; the exception is not caught by the
loop, which dies with the phase left at CallerIdReady — not Failed — and
no final callback invocation beyond the in-step CallerIdReady one. -/
theorem claim_C10 (m : PhoneModem) (rt : Option Nat) (raw : String) (now : Nat)
    (rest : List ReadResult) (f d : String)
    (htime : m.cid_time = CidTime.intVal 0)
    (hlen : 4 < (stripCRLF raw).length)
    (hmem : '=' ∈ (stripCRLF raw).data)
    (hsplit : pySplitEq (stripCRLF raw) = [f, d])
    (hf : pyStrip f = "NAME") :
    ∃ mf : PhoneModem,
      modemSm (ReadResult.ok raw now :: rest) m rt =
        Except.error (PyError.attributeError, mf, [STATE_CALLERID]) ∧
      mf.state = STATE_CALLERID ∧ mf.state ≠ STATE_FAILED := by
  have hraw : raw ≠ "" := by
    intro h0
    rw [h0] at hlen
    exact absurd hlen (by decide)
  have hOK : stripCRLF raw ≠ "OK" := by
    intro h0; rw [h0] at hlen; exact absurd hlen (by decide)
  have hERR : stripCRLF raw ≠ "ERROR" := by
    intro h0; rw [h0] at hmem; exact absurd hmem (by decide)
  have hRING : stripCRLF raw ≠ "RING" := by
    intro h0; rw [h0] at hlen; exact absurd hlen (by decide)
  have hnle : ¬ (stripCRLF raw).length ≤ 4 := Nat.not_le.2 hlen
  have step_eq : modemSmStep m rt (ReadResult.ok raw now) =
      StepOut.exn PyError.attributeError
        { appendResp m (stripCRLF raw) with
          cid_name := pyStrip d, state := STATE_CALLERID }
        [STATE_CALLERID] [] := by
    simp [modemSmStep, hsplit, hf, htime, hraw, hOK, hERR, hRING, hnle, hmem,
      CidTime.strftime]
  refine ⟨{ appendResp m (stripCRLF raw) with
            cid_name := pyStrip d, state := STATE_CALLERID }, ?_, rfl,
          (by decide : STATE_CALLERID ≠ STATE_FAILED)⟩
  simp only [modemSm, step_eq]

/-- C10 witness: a freshly constructed session (integer `cid_time` 0)
processing `NAME=JOHN` dies on `AttributeError` with the phase at
CallerIdReady, not Failed. -/
theorem claim_C10_witness :
    ∃ mf : PhoneModem,
      modemSm [ReadResult.ok "NAME=JOHN" 9] mDefault READ_IDLE_TIMEOUT =
        Except.error (PyError.attributeError, mf, [STATE_CALLERID]) ∧
      mf.state = STATE_CALLERID ∧ mf.state ≠ STATE_FAILED :=
  claim_C10 mDefault READ_IDLE_TIMEOUT "NAME=JOHN" 9 [] "NAME" "JOHN" rfl
    (by decide) (by decide) (by decide) (by decide)

end PhoneModemSpec
